import Mathlib

/-!
Shallow embedding of the core of the `gothink` MCP server:

* the string-search helpers shared by the security repository and the retry
  layer (`contains`, `containsSubstring`),
* the security repository's CVE query path (`QueryCVEs`),
* the resilient-retry layer (`RetryConfig`, `calculateDelay`,
  `RetryWithConfig`, `IsRetryableError`),
* the session/collection store (`Storage` with its five collections, the
  session registry, `AddThought` & friends, `GetSessionStats`).

Go strings are modeled as `List Char` where byte-level slicing matters;
Go `int` values that may be negative (limits, offsets, retry counts,
durations) are modeled as `Int`; `float64` arithmetic in the backoff
computation is modeled exactly over `ℚ` with the final
`time.Duration(...)` conversion as truncation toward zero; `time.Now()`
and the time-based ID generator are modeled as explicit `now`/`gen`
parameters threaded into each operation.  Code that can panic returns
`Option`.
-/

namespace Gothink

/-! ## String helpers (internal/intelligence/retry.go and
internal/repository/security_repository.go both define these, verbatim). -/

/-- Embeds `containsSubstring`: the linear scan
`for i := 0; i <= len(s)-len(substr); i++ { if s[i:i+len(substr)] == substr { return true } }`.
When `len(s) < len(substr)` the Go loop bound `len(s)-len(substr)` is a
negative `int`, so the loop body never runs and the result is `false`. -/
def containsSubstring (s substr : List Char) : Bool :=
  if s.length < substr.length then false
  else (List.range (s.length - substr.length + 1)).any
    (fun i => (s.drop i).take substr.length == substr)

/-- Embeds `contains`: despite its doc comment claiming case-insensitivity, it
is `len(s) >= len(substr) && (s == substr || len(s) > len(substr) &&
(s[:len(substr)] == substr || s[len(s)-len(substr):] == substr ||
containsSubstring(s, substr)))`. -/
def contains (s substr : List Char) : Bool :=
  decide (substr.length ≤ s.length) &&
    (s == substr ||
      (decide (substr.length < s.length) &&
        (s.take substr.length == substr ||
         (s.drop (s.length - substr.length) == substr ||
          containsSubstring s substr))))

theorem drop_take_eq_of_infix (s substr : List Char) (h : substr <:+: s) :
    ∃ i, i ≤ s.length - substr.length ∧ (s.drop i).take substr.length = substr := by
  obtain ⟨pre, post, hs⟩ := h
  subst hs
  refine ⟨pre.length, ?_, ?_⟩
  · simp
    omega
  · rw [List.append_assoc, List.drop_left, List.take_left]

theorem infix_of_drop_take (s substr : List Char) (i : Nat)
    (hi : (s.drop i).take substr.length = substr) : substr <:+: s := by
  have h2 : (s.drop i).take substr.length <:+: s :=
    ⟨s.take i, (s.drop i).drop substr.length, by
      rw [List.append_assoc, List.take_append_drop, List.take_append_drop]⟩
  rwa [hi] at h2

theorem containsSubstring_eq_true_iff (s substr : List Char) :
    containsSubstring s substr = true ↔ substr <:+: s := by
  unfold containsSubstring
  split
  · rename_i hlt
    simp only [Bool.false_eq_true, false_iff]
    intro hinf
    exact absurd hinf.length_le (by omega)
  · rename_i hge
    push_neg at hge
    rw [List.any_eq_true]
    constructor
    · rintro ⟨i, _hmem, hi⟩
      rw [beq_iff_eq] at hi
      exact infix_of_drop_take s substr i hi
    · intro hinf
      obtain ⟨i, hle, hi⟩ := drop_take_eq_of_infix s substr hinf
      exact ⟨i, List.mem_range.mpr (by omega), by rw [beq_iff_eq]; exact hi⟩

theorem contains_eq_true_iff (s substr : List Char) :
    contains s substr = true ↔ substr <:+: s := by
  unfold contains
  constructor
  · intro h
    simp only [Bool.and_eq_true, Bool.or_eq_true, decide_eq_true_eq,
      beq_iff_eq] at h
    obtain ⟨hlen, h⟩ := h
    rcases h with h | ⟨hlt, h⟩
    · exact h ▸ List.infix_refl _
    · rcases h with h | h | h
      · exact h ▸ List.take_prefix _ _ |>.isInfix
      · exact h ▸ List.drop_suffix _ _ |>.isInfix
      · exact (containsSubstring_eq_true_iff s substr).mp h
  · intro hinf
    have hlen := hinf.length_le
    simp only [Bool.and_eq_true, Bool.or_eq_true, decide_eq_true_eq,
      beq_iff_eq]
    refine ⟨hlen, ?_⟩
    rcases Nat.lt_or_ge substr.length s.length with hlt | hge
    · exact Or.inr ⟨hlt, Or.inr <| Or.inr <|
        (containsSubstring_eq_true_iff s substr).mpr hinf⟩
    · exact Or.inl (hinf.eq_of_length (by omega)).symm

theorem contains_eq_containsSubstring (s substr : List Char)
    (_h : substr.length ≤ s.length) :
    contains s substr = containsSubstring s substr := by
  by_cases hc : substr <:+: s
  · rw [(contains_eq_true_iff s substr).mpr hc,
      (containsSubstring_eq_true_iff s substr).mpr hc]
  · rcases hA : contains s substr with _ | _
    · rcases hB : containsSubstring s substr with _ | _
      · rfl
      · exact absurd ((containsSubstring_eq_true_iff s substr).mp hB) hc
    · exact absurd ((contains_eq_true_iff s substr).mp hA) hc

/-- `contains` lifted to Lean strings (Go passes `string` values; the model
compares their character lists, which agrees with Go's byte comparison on
the data involved). -/
def containsStr (s substr : String) : Bool :=
  contains s.toList substr.toList

/-! ## Security repository (internal/repository/security_repository.go) and
its models (internal/models). -/

/-- Embeds `models.CVE`; `time.Time` fields as `Nat`, `float64` as `ℚ`. -/
structure CVE where
  ID : String
  Description : String
  Severity : String
  CVSSScore : ℚ
  CVSSVector : String
  Published : Nat
  Modified : Nat
  References : List String
  Products : List String
  Vendors : List String
  deriving DecidableEq

/-- Embeds `models.IntelligenceQuery`. -/
structure IntelligenceQuery where
  Query : String
  Limit : Int
  Offset : Int
  SortBy : String
  SortOrder : String
  deriving DecidableEq

/-- Embeds `models.IntelligenceResponse` for the CVE query path (the
`Results []interface{}` slice holds CVE values there); `Timestamp` as `Nat`. -/
structure IntelligenceResponse where
  Results : List CVE
  Total : Int
  Limit : Int
  Offset : Int
  Query : String
  Source : String
  Timestamp : Nat
  deriving DecidableEq

/-- The match predicate of `QueryCVEs`:
`query.Query == "" || contains(cve.Description, query.Query) || contains(cve.ID, query.Query)`. -/
def cveMatches (q : String) (cve : CVE) : Bool :=
  q == "" || containsStr cve.Description q || containsStr cve.ID q

/-- Embeds `SecurityRepository.QueryCVEs`.  The repository's map of CVEs is
represented as the list of its values in iteration order.  `total` is the
match count; the pagination clamps `end` and `start` down to `len(results)`
but never up to `0`, and the final `results[start:end]` slice expression
panics (modeled as `none`) unless `0 <= start <= end`. -/
def QueryCVEs (cves : List CVE) (query : IntelligenceQuery) (now : Nat) :
    Option IntelligenceResponse :=
  let results := cves.filter (cveMatches query.Query)
  let total : Int := results.length
  let start0 : Int := query.Offset
  let end0 : Int := query.Offset + query.Limit
  let end1 : Int := if total < end0 then total else end0
  let start1 : Int := if total < start0 then total else start0
  if 0 ≤ start1 ∧ start1 ≤ end1 then
    some { Results := (results.drop start1.toNat).take (end1 - start1).toNat
           Total := total
           Limit := query.Limit
           Offset := query.Offset
           Query := query.Query
           Source := "NVD"
           Timestamp := now }
  else none

/-! ## Retry layer (internal/intelligence/retry.go). -/

/-- Embeds `RetryConfig`.  `MaxRetries` is a Go `int`; `BaseDelay` and
`MaxDelay` are `time.Duration` (an `int64` count of nanoseconds);
`Multiplier` is a `float64`, modeled exactly as a rational. -/
structure RetryConfig where
  MaxRetries : Int
  BaseDelay : Int
  MaxDelay : Int
  Multiplier : ℚ
  Jitter : Bool
  deriving DecidableEq

/-- Embeds `DefaultRetryConfig` (delays in nanoseconds). -/
def DefaultRetryConfig : RetryConfig :=
  { MaxRetries := 3
    BaseDelay := 1000000000
    MaxDelay := 30000000000
    Multiplier := 2
    Jitter := true }

/-- Go's `time.Duration(f)` conversion from `float64`: truncation toward
zero. -/
def truncQ (q : ℚ) : Int :=
  if 0 ≤ q then ⌊q⌋ else ⌈q⌉

/-- The `float64` computation inside `calculateDelay`, idealized as exact
arithmetic over `ℚ`: `delay := float64(BaseDelay) * Multiplier^(attempt-1)`,
clamped down to `MaxDelay` from above only, then the degenerate jitter term
`delay * 0.1 * (0.5 - 0.5)` is added when `Jitter` is set.  `calculateDelay`
is only ever called with `attempt >= 1`, so the exponent `attempt-1` is the
natural number subtraction.  This exact idealization drops the rounding of
each float64 operation; it is adequate for rounding-insensitive facts such
as the jitter term's identical-on-both-flags behavior, while
rounding-sensitive facts (the delay bounds) are stated against
`calculateDelayFP` below, which makes the rounding explicit. -/
def calculateDelayQ (config : RetryConfig) (attempt : Nat) : ℚ :=
  let delay : ℚ := (config.BaseDelay : ℚ) * config.Multiplier ^ (attempt - 1)
  let delay : ℚ := if (config.MaxDelay : ℚ) < delay then (config.MaxDelay : ℚ) else delay
  if config.Jitter then delay + delay * (1 / 10) * (1 / 2 - 1 / 2) else delay

/-- Embeds `calculateDelay`: the float computation followed by the
`time.Duration(delay)` truncation. -/
def calculateDelay (config : RetryConfig) (attempt : Nat) : Int :=
  truncQ (calculateDelayQ config attempt)

/-- Embeds `calculateDelay` with the `float64` rounding made explicit.
`fl` is the rounding that IEEE-754 applies to the result of every float64
conversion, literal and arithmetic operation; it is kept abstract and the
bound theorem assumes of it only properties the real round-to-nearest-even
has (exact on integers of magnitude up to `2^53`, idempotent on rounded
values, sign-preserving).  `pw` is `math.Pow`, whose precision the Go
specification leaves to the library, so it is an oracle.  Overflow of a
product to `+Inf` behaves, for this code, like any over-`MaxDelay` value,
because the clamp precedes every further use, so the rational codomain
loses nothing here; `Multiplier` is a rational, which restricts the model
to finite, non-NaN multiplier configurations.  The constant `0.5 - 0.5` is
modeled as the rounded difference of the rounded halves (it is exactly `0`
whether or not the compiler folds it).  `time.Duration(delay)` truncates
toward zero; for the bounded runs below the value is in `int64` range, so
the conversion is fully defined. -/
def calculateDelayFP (fl : ℚ → ℚ) (pw : ℚ → ℚ → ℚ) (config : RetryConfig)
    (attempt : Nat) : Int :=
  let b : ℚ := fl (config.BaseDelay : ℚ)
  let p : ℚ := pw config.Multiplier ((attempt : ℚ) - 1)
  let delay : ℚ := fl (b * p)
  let maxf : ℚ := fl (config.MaxDelay : ℚ)
  let delay : ℚ := if maxf < delay then maxf else delay
  let delay : ℚ :=
    if config.Jitter then
      fl (delay + fl (fl (delay * fl (1 / 10)) * fl (fl (1 / 2) - fl (1 / 2))))
    else delay
  truncQ delay

/-- Result of `RetryWithConfig`: `nil`, the wrapped max-retries error, or the
context's cancellation error. -/
inductive RetryResult where
  | ok
  | maxRetriesExceeded (msg : String)
  | cancelled
  deriving DecidableEq

/-- Embeds the loop body of `RetryWithConfig`.  The context is modeled as a
predicate `ctx : Nat → Bool` telling whether `ctx.Done()` is closed at the
i-th checkpoint the code reaches (one `select` before each attempt, plus one
more during the inter-attempt wait for attempts after the first); `fn` gives
the error of the i-th invocation of the operation (`none` = success).
`remaining` counts loop iterations still allowed (`attempt <= MaxRetries`),
so `remaining = 1` means `attempt == MaxRetries` and a failure there returns
the wrapped error.  Returns the result together with the number of times the
operation was invoked. -/
def retryLoop (ctx : Nat → Bool) (fn : Nat → Option String) :
    Nat → Nat → Nat → Nat → RetryResult × Nat
  | _, calls, _, 0 => (RetryResult.ok, calls)
  | attempt, calls, cp, r + 1 =>
    if ctx cp then (RetryResult.cancelled, calls)
    else if 0 < attempt ∧ ctx (cp + 1) then (RetryResult.cancelled, calls)
    else
      match fn calls with
      | none => (RetryResult.ok, calls + 1)
      | some e =>
        if r = 0 then
          (RetryResult.maxRetriesExceeded ("max retries exceeded: " ++ e), calls + 1)
        else
          retryLoop ctx fn (attempt + 1) (calls + 1)
            (cp + (if 0 < attempt then 2 else 1)) r

/-- Embeds `RetryWithConfig`.  When `MaxRetries < 0` the `for` loop condition
`attempt <= config.MaxRetries` fails immediately and the function returns the
zero value `lastErr = nil` without invoking the operation. -/
def RetryWithConfig (ctx : Nat → Bool) (config : RetryConfig)
    (fn : Nat → Option String) : RetryResult × Nat :=
  if config.MaxRetries < 0 then (RetryResult.ok, 0)
  else retryLoop ctx fn 0 0 0 (config.MaxRetries.toNat + 1)

/-- The retryable-error signature list of `IsRetryableError`. -/
def retryableErrors : List String :=
  ["timeout", "connection refused", "connection reset", "temporary failure",
   "rate limit", "too many requests", "service unavailable",
   "internal server error", "bad gateway", "gateway timeout"]

/-- Embeds `IsRetryableError` (`none` models a `nil` error). -/
def IsRetryableError (err : Option String) : Bool :=
  match err with
  | none => false
  | some errStr => retryableErrors.any (fun r => containsStr errStr r)

/-! ## Artifact types (internal/types/types.go).  `time.Time` fields are
`Nat`, Go `int` fields are `Int`, `*int` is `Option Int`, `float64` is `ℚ`,
and opaque `map[string]interface{}` payloads are association lists whose
dynamic values are modeled as strings (no operation under verification
inspects them). -/

/-- Embeds `types.ThoughtData`. -/
structure ThoughtData where
  ID : String
  Thought : String
  ThoughtNumber : Int
  TotalThoughts : Int
  IsRevision : Bool
  RevisesThought : Option Int
  BranchFromThought : Option Int
  BranchID : String
  NeedsMoreThoughts : Bool
  NextThoughtNeeded : Bool
  CreatedAt : Nat
  deriving DecidableEq

/-- Embeds `types.MentalModelData`. -/
structure MentalModelData where
  ID : String
  ModelName : String
  Problem : String
  Steps : List String
  Reasoning : String
  Conclusion : String
  Confidence : ℚ
  CreatedAt : Nat
  deriving DecidableEq

/-- Embeds `types.StochasticAlgorithmData`. -/
structure StochasticAlgorithmData where
  ID : String
  Algorithm : String
  Problem : String
  Parameters : List (String × String)
  Result : String
  Confidence : ℚ
  Iterations : Int
  Converged : Bool
  CreatedAt : Nat
  deriving DecidableEq

/-- Embeds `types.DecisionOption`. -/
structure DecisionOption where
  ID : String
  Name : String
  Description : String
  ExpectedValue : ℚ
  RiskLevel : String
  ProbabilityOfSuccess : ℚ
  deriving DecidableEq

/-- Embeds `types.DecisionCriterion`. -/
structure DecisionCriterion where
  ID : String
  Name : String
  Description : String
  Weight : ℚ
  EvaluationMethod : String
  deriving DecidableEq

/-- Embeds `types.DecisionData`. -/
structure DecisionData where
  ID : String
  DecisionStatement : String
  Options : List DecisionOption
  Criteria : List DecisionCriterion
  Stakeholders : List String
  Constraints : List String
  TimeHorizon : String
  RiskTolerance : String
  AnalysisType : String
  Stage : String
  Recommendation : String
  Iteration : Int
  NextStageNeeded : Bool
  CreatedAt : Nat
  deriving DecidableEq

/-- Embeds `types.VisualElement`.  The Go field `Type` is renamed `Type'`
because `Type` is a Lean keyword. -/
structure VisualElement where
  ID : String
  Type' : String
  Label : String
  Properties : List (String × String)
  Source : String
  Target : String
  Contains : List String
  Probability : ℚ
  deriving DecidableEq

/-- Embeds `types.VisualData`. -/
structure VisualData where
  ID : String
  Operation : String
  Elements : List VisualElement
  TransformationType : String
  DiagramID : String
  DiagramType : String
  Iteration : Int
  Observation : String
  Insight : String
  Hypothesis : String
  NextOperationNeeded : Bool
  CreatedAt : Nat
  deriving DecidableEq

/-- Embeds `types.SessionStatistics`.  The nested
`Stores map[string]interface{}` of per-collection `{"count": n}` maps is
flattened to an association list from store name to count. -/
structure SessionStatistics where
  SessionID : String
  CreatedAt : Nat
  LastAccessedAt : Nat
  ThoughtCount : Int
  ToolsUsed : List String
  TotalOperations : Int
  IsActive : Bool
  RemainingThoughts : Int
  Stores : List (String × Int)
  deriving DecidableEq

/-! ## Storage (internal/storage/storage.go). -/

/-- Embeds `storage.SessionData`. -/
structure SessionData where
  ID : String
  CreatedAt : Nat
  LastAccessedAt : Nat
  ThoughtCount : Int
  ToolsUsed : List String
  TotalOperations : Int
  IsActive : Bool
  RemainingThoughts : Int
  deriving DecidableEq

/-- The one field of `config.Config` the storage layer reads. -/
structure Config where
  MaxThoughtsPerSession : Int
  deriving DecidableEq

/-- Lookup in a Go map represented as an association list of its entries in
iteration order. -/
def lookupAL {α : Type} (k : String) : List (String × α) → Option α
  | [] => none
  | (k', v) :: rest => if k' = k then some v else lookupAL k rest

/-- Go map assignment `m[k] = v`: replace the existing entry for `k`, or add
one. -/
def insertAL {α : Type} (k : String) (v : α) : List (String × α) →
    List (String × α)
  | [] => [(k, v)]
  | (k', v') :: rest =>
    if k' = k then (k, v) :: rest else (k', v') :: insertAL k v rest

/-- Embeds `storage.Storage`: five artifact collections plus the session
registry, each a Go map modeled as an association list (the mutexes guard
the in-place mutation and have no functional content here). -/
structure Storage where
  config : Config
  thoughts : List (String × ThoughtData)
  mentalModels : List (String × MentalModelData)
  stochasticAlgorithms : List (String × StochasticAlgorithmData)
  decisions : List (String × DecisionData)
  visualData : List (String × VisualData)
  sessions : List (String × SessionData)
  deriving DecidableEq

/-- The fresh session record both `CreateSession` and `getSession` build. -/
def freshSession (sessionID : String) (now : Nat) (maxThoughts : Int) :
    SessionData :=
  { ID := sessionID
    CreatedAt := now
    LastAccessedAt := now
    ThoughtCount := 0
    ToolsUsed := []
    TotalOperations := 0
    IsActive := true
    RemainingThoughts := maxThoughts }

/-- Embeds `Storage.getSession`: get or lazily create the session entry,
returning it together with the (possibly updated) storage. -/
def getSession (s : Storage) (sessionID : String) (now : Nat) :
    SessionData × Storage :=
  match lookupAL sessionID s.sessions with
  | some session => (session, s)
  | none =>
    let session := freshSession sessionID now s.config.MaxThoughtsPerSession
    (session, { s with sessions := insertAL sessionID session s.sessions })

/-- Embeds `Storage.AddThought`.  `now` models `time.Now()` and `gen` the
freshly generated ID from `generateID()`.  Returns the error message (if
any) together with the resulting storage: on the quota error the thought is
not inserted, but the session lazily created by `getSession` persists, as it
does in the Go code. -/
def AddThought (s : Storage) (sessionID : String) (thought : ThoughtData)
    (now : Nat) (gen : String) : Option String × Storage :=
  let sp := getSession s sessionID now
  let session := sp.1
  let s1 := sp.2
  if s.config.MaxThoughtsPerSession ≤ session.ThoughtCount then
    (some ("thought limit reached for session " ++ sessionID), s1)
  else
    let tid := if thought.ID = "" then gen else thought.ID
    let t := { thought with ID := tid, CreatedAt := now }
    let session2 := { session with
      ThoughtCount := session.ThoughtCount + 1
      LastAccessedAt := now }
    (none,
     { s1 with
       thoughts := insertAL tid t s1.thoughts
       sessions := insertAL sessionID session2 s1.sessions })

/-- Embeds `Storage.GetThoughts`: iterates over the whole thoughts map and
appends every value, ignoring the requested session ID. -/
def GetThoughts (s : Storage) (_sessionID : String) : List ThoughtData :=
  s.thoughts.map Prod.snd

/-- Embeds `Storage.AddMentalModel` (always returns a `nil` error). -/
def AddMentalModel (s : Storage) (sessionID : String) (model : MentalModelData)
    (now : Nat) (gen : String) : Option String × Storage :=
  let mid := if model.ID = "" then gen else model.ID
  let m := { model with ID := mid, CreatedAt := now }
  let sp := getSession { s with mentalModels := insertAL mid m s.mentalModels }
    sessionID now
  let session := sp.1
  let s1 := sp.2
  let session2 := { session with LastAccessedAt := now }
  (none, { s1 with sessions := insertAL sessionID session2 s1.sessions })

/-- Embeds `Storage.GetMentalModels` (session-unscoped, like `GetThoughts`). -/
def GetMentalModels (s : Storage) (_sessionID : String) : List MentalModelData :=
  s.mentalModels.map Prod.snd

/-- Embeds `Storage.AddStochasticAlgorithm` (always returns a `nil` error). -/
def AddStochasticAlgorithm (s : Storage) (sessionID : String)
    (algorithm : StochasticAlgorithmData) (now : Nat) (gen : String) :
    Option String × Storage :=
  let aid := if algorithm.ID = "" then gen else algorithm.ID
  let a := { algorithm with ID := aid, CreatedAt := now }
  let sp := getSession
    { s with stochasticAlgorithms := insertAL aid a s.stochasticAlgorithms }
    sessionID now
  let session := sp.1
  let s1 := sp.2
  let session2 := { session with LastAccessedAt := now }
  (none, { s1 with sessions := insertAL sessionID session2 s1.sessions })

/-- Embeds `Storage.GetStochasticAlgorithms` (session-unscoped). -/
def GetStochasticAlgorithms (s : Storage) (_sessionID : String) :
    List StochasticAlgorithmData :=
  s.stochasticAlgorithms.map Prod.snd

/-- Embeds `Storage.AddDecision` (always returns a `nil` error). -/
def AddDecision (s : Storage) (sessionID : String) (decision : DecisionData)
    (now : Nat) (gen : String) : Option String × Storage :=
  let did := if decision.ID = "" then gen else decision.ID
  let d := { decision with ID := did, CreatedAt := now }
  let sp := getSession { s with decisions := insertAL did d s.decisions }
    sessionID now
  let session := sp.1
  let s1 := sp.2
  let session2 := { session with LastAccessedAt := now }
  (none, { s1 with sessions := insertAL sessionID session2 s1.sessions })

/-- Embeds `Storage.GetDecisions` (session-unscoped). -/
def GetDecisions (s : Storage) (_sessionID : String) : List DecisionData :=
  s.decisions.map Prod.snd

/-- Embeds `Storage.AddVisualData` (always returns a `nil` error). -/
def AddVisualData (s : Storage) (sessionID : String) (visual : VisualData)
    (now : Nat) (gen : String) : Option String × Storage :=
  let vid := if visual.ID = "" then gen else visual.ID
  let v := { visual with ID := vid, CreatedAt := now }
  let sp := getSession { s with visualData := insertAL vid v s.visualData }
    sessionID now
  let session := sp.1
  let s1 := sp.2
  let session2 := { session with LastAccessedAt := now }
  (none, { s1 with sessions := insertAL sessionID session2 s1.sessions })

/-- Embeds `Storage.GetVisualData` (session-unscoped). -/
def GetVisualData (s : Storage) (_sessionID : String) : List VisualData :=
  s.visualData.map Prod.snd

/-- Embeds `Storage.GetSessionStats`.  It starts with `getSession`, which
lazily creates the session entry for an unknown session ID; the statistics
are then computed from the full (session-unscoped) collections.  The set of
tool labels is built in a `map[string]bool` whose iteration order is
arbitrary; the model lists the labels in first-contribution order without
duplicates. -/
def GetSessionStats (s : Storage) (sessionID : String) (now : Nat) :
    SessionStatistics × Storage :=
  let sp := getSession s sessionID now
  let session := sp.1
  let s1 := sp.2
  let thoughts := GetThoughts s1 sessionID
  let mentalModels := GetMentalModels s1 sessionID
  let stochasticAlgorithms := GetStochasticAlgorithms s1 sessionID
  let decisions := GetDecisions s1 sessionID
  let visualData := GetVisualData s1 sessionID
  let toolsUsed :=
    ((if thoughts.isEmpty then [] else ["sequential-thinking"]) ++
     (if mentalModels.isEmpty then [] else ["mental-model"]) ++
     stochasticAlgorithms.map (fun a => "stochastic-" ++ a.Algorithm) ++
     (if decisions.isEmpty then [] else ["decision-framework"]) ++
     visualData.map (fun v => "visual-" ++ v.DiagramType)).dedup
  ({ SessionID := sessionID
     CreatedAt := session.CreatedAt
     LastAccessedAt := session.LastAccessedAt
     ThoughtCount := (thoughts.length : Int)
     ToolsUsed := toolsUsed
     TotalOperations :=
       ((thoughts.length + mentalModels.length + stochasticAlgorithms.length +
         decisions.length + visualData.length : Nat) : Int)
     IsActive := session.IsActive
     RemainingThoughts :=
       s.config.MaxThoughtsPerSession - (thoughts.length : Int)
     Stores :=
       [("thoughts", (thoughts.length : Int)),
        ("mental_models", (mentalModels.length : Int)),
        ("stochastic_algorithms", (stochasticAlgorithms.length : Int)),
        ("decisions", (decisions.length : Int)),
        ("visual_data", (visualData.length : Int))] },
   s1)

/-- The thought count the session registry records for a session (`0` when
the session does not exist yet). -/
def thoughtCountOf (s : Storage) (sessionID : String) : Int :=
  match lookupAL sessionID s.sessions with
  | some session => session.ThoughtCount
  | none => 0

theorem lookupAL_insertAL_self {α : Type} (k : String) (v : α)
    (l : List (String × α)) : lookupAL k (insertAL k v l) = some v := by
  induction l with
  | nil => simp [insertAL, lookupAL]
  | cons hd tl ih =>
    obtain ⟨k', v'⟩ := hd
    by_cases h : k' = k <;> simp [insertAL, lookupAL, h, ih]

theorem lookupAL_insertAL_ne {α : Type} (k k2 : String) (v : α)
    (l : List (String × α)) (h : k2 ≠ k) :
    lookupAL k2 (insertAL k v l) = lookupAL k2 l := by
  have h2 : ¬ k = k2 := fun he => h he.symm
  induction l with
  | nil => simp [insertAL, lookupAL, h2]
  | cons hd tl ih =>
    obtain ⟨k', v'⟩ := hd
    by_cases hk : k' = k
    · subst hk
      simp [insertAL, lookupAL, h2]
    · simp [insertAL, lookupAL, hk, ih]

/-- C1: `AddThought` fails (with the quota error naming the session ID)
exactly when the session's recorded thought count has already reached
`MaxThoughtsPerSession`, and on that error the thoughts collection and the
session's thought count are unchanged. -/
theorem addThought_quota_iff (s : Storage) (sid : String) (t : ThoughtData)
    (now : Nat) (gen : String) :
    ((AddThought s sid t now gen).1.isSome ↔
      s.config.MaxThoughtsPerSession ≤ thoughtCountOf s sid) ∧
    (s.config.MaxThoughtsPerSession ≤ thoughtCountOf s sid →
      (AddThought s sid t now gen).1 =
        some ("thought limit reached for session " ++ sid) ∧
      (AddThought s sid t now gen).2.thoughts = s.thoughts ∧
      thoughtCountOf (AddThought s sid t now gen).2 sid =
        thoughtCountOf s sid) := by
  unfold AddThought getSession thoughtCountOf
  cases hlk : lookupAL sid s.sessions with
  | some session =>
    by_cases hq : s.config.MaxThoughtsPerSession ≤ session.ThoughtCount <;>
      simp [hlk, hq]
  | none =>
    by_cases hq : s.config.MaxThoughtsPerSession ≤ (0 : Int)
    · simp [hlk, hq, freshSession, lookupAL_insertAL_self]
    · simp [hlk, hq, freshSession]

/-- C1 witness: on a session already at the quota, `AddThought` rejects with
the quota error and leaves the thoughts collection and the count unchanged. -/
theorem addThought_quota_iff_witness :
    ((AddThought
        { config := { MaxThoughtsPerSession := 2 },
          thoughts := [], mentalModels := [], stochasticAlgorithms := [],
          decisions := [], visualData := [],
          sessions := [("s1", freshSession "s1" 0 2)] }
        "s1"
        { ID := "", Thought := "hi", ThoughtNumber := 1, TotalThoughts := 1,
          IsRevision := false, RevisesThought := none,
          BranchFromThought := none, BranchID := "",
          NeedsMoreThoughts := false, NextThoughtNeeded := false,
          CreatedAt := 0 }
        5 "g1").1.isSome ↔
      (2 : Int) ≤ thoughtCountOf
        { config := { MaxThoughtsPerSession := 2 },
          thoughts := [], mentalModels := [], stochasticAlgorithms := [],
          decisions := [], visualData := [],
          sessions := [("s1", freshSession "s1" 0 2)] } "s1") :=
  (addThought_quota_iff
    { config := { MaxThoughtsPerSession := 2 },
      thoughts := [], mentalModels := [], stochasticAlgorithms := [],
      decisions := [], visualData := [],
      sessions := [("s1", freshSession "s1" 0 2)] }
    "s1"
    { ID := "", Thought := "hi", ThoughtNumber := 1, TotalThoughts := 1,
      IsRevision := false, RevisesThought := none,
      BranchFromThought := none, BranchID := "",
      NeedsMoreThoughts := false, NextThoughtNeeded := false,
      CreatedAt := 0 }
    5 "g1").1

/-- C2: the five GetAll-style reads ignore the session ID entirely and
return the whole corresponding collection. -/
theorem getAll_session_unscoped (s : Storage) (sid1 sid2 : String) :
    GetThoughts s sid1 = GetThoughts s sid2 ∧
    GetThoughts s sid1 = s.thoughts.map Prod.snd ∧
    GetMentalModels s sid1 = GetMentalModels s sid2 ∧
    GetMentalModels s sid1 = s.mentalModels.map Prod.snd ∧
    GetStochasticAlgorithms s sid1 = GetStochasticAlgorithms s sid2 ∧
    GetStochasticAlgorithms s sid1 = s.stochasticAlgorithms.map Prod.snd ∧
    GetDecisions s sid1 = GetDecisions s sid2 ∧
    GetDecisions s sid1 = s.decisions.map Prod.snd ∧
    GetVisualData s sid1 = GetVisualData s sid2 ∧
    GetVisualData s sid1 = s.visualData.map Prod.snd :=
  ⟨rfl, rfl, rfl, rfl, rfl, rfl, rfl, rfl, rfl, rfl⟩

/-- C9: every Add stamps `CreatedAt` with the server-side time, and a new ID
is used as the storage key only when the caller-supplied ID is empty; a
non-empty supplied ID is preserved unchanged as the key. -/
theorem add_assigns_timestamp_and_id (s : Storage) (sid : String) (now : Nat)
    (gen : String) (t : ThoughtData) (m : MentalModelData)
    (a : StochasticAlgorithmData) (d : DecisionData) (v : VisualData) :
    (thoughtCountOf s sid < s.config.MaxThoughtsPerSession →
     (t.ID = "" →
      lookupAL gen (AddThought s sid t now gen).2.thoughts =
        some { t with ID := gen, CreatedAt := now }) ∧
     (t.ID ≠ "" →
      lookupAL t.ID (AddThought s sid t now gen).2.thoughts =
        some { t with CreatedAt := now })) ∧
    ((m.ID = "" →
      lookupAL gen (AddMentalModel s sid m now gen).2.mentalModels =
        some { m with ID := gen, CreatedAt := now }) ∧
     (m.ID ≠ "" →
      lookupAL m.ID (AddMentalModel s sid m now gen).2.mentalModels =
        some { m with CreatedAt := now })) ∧
    ((a.ID = "" →
      lookupAL gen
          (AddStochasticAlgorithm s sid a now gen).2.stochasticAlgorithms =
        some { a with ID := gen, CreatedAt := now }) ∧
     (a.ID ≠ "" →
      lookupAL a.ID
          (AddStochasticAlgorithm s sid a now gen).2.stochasticAlgorithms =
        some { a with CreatedAt := now })) ∧
    ((d.ID = "" →
      lookupAL gen (AddDecision s sid d now gen).2.decisions =
        some { d with ID := gen, CreatedAt := now }) ∧
     (d.ID ≠ "" →
      lookupAL d.ID (AddDecision s sid d now gen).2.decisions =
        some { d with CreatedAt := now })) ∧
    ((v.ID = "" →
      lookupAL gen (AddVisualData s sid v now gen).2.visualData =
        some { v with ID := gen, CreatedAt := now }) ∧
     (v.ID ≠ "" →
      lookupAL v.ID (AddVisualData s sid v now gen).2.visualData =
        some { v with CreatedAt := now })) := by
  constructor
  · intro hq
    unfold thoughtCountOf at hq
    constructor <;> intro hid <;>
    · simp only [AddThought, getSession]
      cases hlk : lookupAL sid s.sessions with
      | some session =>
        rw [hlk] at hq
        simp [hlk, hid, not_le.mpr hq, lookupAL_insertAL_self]
      | none =>
        rw [hlk] at hq
        simp [hlk, hid, freshSession, not_le.mpr hq, lookupAL_insertAL_self]
  · refine ⟨⟨?_, ?_⟩, ⟨?_, ?_⟩, ⟨?_, ?_⟩, ⟨?_, ?_⟩⟩ <;> intro hid <;>
    · simp only [AddMentalModel, AddStochasticAlgorithm, AddDecision,
        AddVisualData, getSession]
      cases hlk : lookupAL sid s.sessions with
      | some session => simp [hlk, hid, lookupAL_insertAL_self]
      | none => simp [hlk, hid, freshSession, lookupAL_insertAL_self]

/-- An empty storage with a quota of 10, used as a concrete input in
several witnesses and counterexamples. -/
def emptyStorage : Storage :=
  { config := { MaxThoughtsPerSession := 10 }
    thoughts := []
    mentalModels := []
    stochasticAlgorithms := []
    decisions := []
    visualData := []
    sessions := [] }

/-- A sample thought with a caller-supplied ID, for the C9 witness. -/
def sampleThought : ThoughtData :=
  { ID := "t7", Thought := "x", ThoughtNumber := 1, TotalThoughts := 1,
    IsRevision := false, RevisesThought := none, BranchFromThought := none,
    BranchID := "", NeedsMoreThoughts := false, NextThoughtNeeded := false,
    CreatedAt := 0 }

/-- A sample mental model with an empty ID, for the C9 witness. -/
def sampleModel : MentalModelData :=
  { ID := "", ModelName := "first_principles", Problem := "p", Steps := [],
    Reasoning := "", Conclusion := "", Confidence := 0, CreatedAt := 0 }

/-- A sample stochastic algorithm record, for the C9 witness. -/
def sampleAlgorithm : StochasticAlgorithmData :=
  { ID := "", Algorithm := "mdp", Problem := "", Parameters := [],
    Result := "", Confidence := 0, Iterations := 0, Converged := false,
    CreatedAt := 0 }

/-- A sample decision record, for the C9 witness. -/
def sampleDecision : DecisionData :=
  { ID := "", DecisionStatement := "", Options := [], Criteria := [],
    Stakeholders := [], Constraints := [], TimeHorizon := "",
    RiskTolerance := "", AnalysisType := "", Stage := "",
    Recommendation := "", Iteration := 1, NextStageNeeded := true,
    CreatedAt := 0 }

/-- A sample visual-data record, for the C9 witness. -/
def sampleVisual : VisualData :=
  { ID := "", Operation := "", Elements := [], TransformationType := "",
    DiagramID := "", DiagramType := "graph", Iteration := 0,
    Observation := "", Insight := "", Hypothesis := "",
    NextOperationNeeded := false, CreatedAt := 0 }

/-- C9 witness: a non-empty supplied thought ID is kept as the storage key
with the server-assigned timestamp, and a mental model with an empty ID is
stored under the generated ID. -/
theorem add_assigns_timestamp_and_id_witness :
    lookupAL "t7" (AddThought emptyStorage "s1" sampleThought 5 "g1").2.thoughts =
      some { sampleThought with CreatedAt := 5 } ∧
    lookupAL "g1"
        (AddMentalModel emptyStorage "s1" sampleModel 5 "g1").2.mentalModels =
      some { sampleModel with ID := "g1", CreatedAt := 5 } := by
  have h := add_assigns_timestamp_and_id emptyStorage "s1" 5 "g1"
    sampleThought sampleModel sampleAlgorithm sampleDecision sampleVisual
  exact ⟨(h.1 (by decide)).2 (by decide), h.2.1.1 (by decide)⟩

/-- C6 (amended): `GetSessionStats` never touches the five collections and
never modifies an existing session entry; its only state effect is that its
`getSession` call lazily creates a fresh session entry when the session ID
is unknown. -/
theorem getSessionStats_frame (s : Storage) (sid : String) (now : Nat) :
    (GetSessionStats s sid now).2.config = s.config ∧
    (GetSessionStats s sid now).2.thoughts = s.thoughts ∧
    (GetSessionStats s sid now).2.mentalModels = s.mentalModels ∧
    (GetSessionStats s sid now).2.stochasticAlgorithms =
      s.stochasticAlgorithms ∧
    (GetSessionStats s sid now).2.decisions = s.decisions ∧
    (GetSessionStats s sid now).2.visualData = s.visualData ∧
    (GetSessionStats s sid now).2.sessions =
      (match lookupAL sid s.sessions with
       | some _ => s.sessions
       | none =>
         insertAL sid (freshSession sid now s.config.MaxThoughtsPerSession)
           s.sessions) := by
  unfold GetSessionStats getSession
  cases hlk : lookupAL sid s.sessions <;> simp [hlk]

/-- C6 counterexample: calling `GetSessionStats` for an unknown session ID
does mutate the storage state — it creates a session registry entry. -/
theorem getSessionStats_creates_session :
    lookupAL "s1" emptyStorage.sessions = none ∧
    lookupAL "s1" (GetSessionStats emptyStorage "s1" 7).2.sessions =
      some (freshSession "s1" 7 10) ∧
    (GetSessionStats emptyStorage "s1" 7).2 ≠ emptyStorage := by
  refine ⟨rfl, rfl, ?_⟩
  decide

/-- C7 (amended): for a query with non-negative limit and offset,
`QueryCVEs` returns (without error) a response whose `total` is the full
match count before pagination, and an offset at or beyond the match count
yields an empty results slice with that same total. -/
theorem queryCVEs_total_and_clamp (cves : List CVE)
    (query : IntelligenceQuery) (now : Nat)
    (hl : 0 ≤ query.Limit) (ho : 0 ≤ query.Offset) :
    ∃ resp, QueryCVEs cves query now = some resp ∧
      resp.Total = ((cves.filter (cveMatches query.Query)).length : Int) ∧
      (((cves.filter (cveMatches query.Query)).length : Int) ≤ query.Offset →
        resp.Results = []) := by
  unfold QueryCVEs
  have hn0 : (0 : Int) ≤ ((cves.filter (cveMatches query.Query)).length : Int) :=
    Int.natCast_nonneg _
  rw [if_pos]
  · refine ⟨_, rfl, rfl, ?_⟩
    intro hoff
    have hs1 : (if ((cves.filter (cveMatches query.Query)).length : Int) <
        query.Offset then ((cves.filter (cveMatches query.Query)).length : Int)
        else query.Offset) =
        ((cves.filter (cveMatches query.Query)).length : Int) := by
      split <;> omega
    simp only [hs1]
    have hdiff : ((if ((cves.filter (cveMatches query.Query)).length : Int) <
        query.Offset + query.Limit then
        ((cves.filter (cveMatches query.Query)).length : Int)
        else query.Offset + query.Limit) -
        ((cves.filter (cveMatches query.Query)).length : Int)).toNat = 0 := by
      split <;> omega
    rw [hdiff]
    exact List.take_zero _
  · constructor
    · split <;> omega
    · split <;> split <;> omega

/-- C7 counterexample: against a 1-record store, the query with
`limit = -1`, `offset = 1` has its offset at the match count, but instead of
returning an empty page the pagination computes the slice bounds
`start = 1 > end = 0` and the Go slice expression panics (modeled as
`none`). -/
theorem queryCVEs_negative_limit_panics :
    QueryCVEs
      [{ ID := "CVE-1", Description := "d", Severity := "", CVSSScore := 0,
         CVSSVector := "", Published := 0, Modified := 0, References := [],
         Products := [], Vendors := [] }]
      { Query := "", Limit := -1, Offset := 1, SortBy := "", SortOrder := "" }
      0 = none := by
  rfl

/-- Five distinct CVE records, used to instantiate C7 at the spec's concrete
example `Query("", 10, 1000)`. -/
def fiveCVEs : List CVE :=
  ["CVE-2024-0001", "CVE-2024-0002", "CVE-2024-0003", "CVE-2024-0004",
   "CVE-2024-0005"].map (fun i =>
    { ID := i, Description := "desc", Severity := "HIGH", CVSSScore := 7,
      CVSSVector := "", Published := 0, Modified := 0, References := [],
      Products := [], Vendors := [] })

/-- C7 witness: `Query("", 10, 1000)` against a 5-record store returns
`results = []` and `total = 5` with no error. -/
theorem queryCVEs_total_and_clamp_witness :
    ∃ resp, QueryCVEs fiveCVEs
        { Query := "", Limit := 10, Offset := 1000, SortBy := "",
          SortOrder := "" } 3 = some resp ∧
      resp.Total = 5 ∧ resp.Results = [] := by
  obtain ⟨resp, hsome, htotal, hempty⟩ := queryCVEs_total_and_clamp fiveCVEs
    { Query := "", Limit := 10, Offset := 1000, SortBy := "", SortOrder := "" }
    3 (by decide) (by decide)
  refine ⟨resp, hsome, ?_, hempty (by decide)⟩
  rw [htotal]
  decide

theorem retryLoop_succ (ctx : Nat → Bool) (fn : Nat → Option String)
    (attempt calls cp r : Nat) :
    retryLoop ctx fn attempt calls cp (r + 1) =
      (if ctx cp then (RetryResult.cancelled, calls)
       else if 0 < attempt ∧ ctx (cp + 1) then (RetryResult.cancelled, calls)
       else
         match fn calls with
         | none => (RetryResult.ok, calls + 1)
         | some e =>
           if r = 0 then
             (RetryResult.maxRetriesExceeded ("max retries exceeded: " ++ e),
              calls + 1)
           else
             retryLoop ctx fn (attempt + 1) (calls + 1)
               (cp + (if 0 < attempt then 2 else 1)) r) := rfl

theorem retryLoop_no_cancel_ok (fn : Nat → Option String) (f : Nat) :
    ∀ (r attempt calls cp : Nat), f ≤ r →
      (∀ i, i < f → (fn (calls + i)).isSome) → fn (calls + f) = none →
      retryLoop (fun _ => false) fn attempt calls cp (r + 1) =
        (RetryResult.ok, calls + f + 1) := by
  induction f with
  | zero =>
    intro r attempt calls cp _ _ hsucc
    rw [Nat.add_zero] at hsucc
    rw [retryLoop_succ]
    simp [hsucc]
  | succ f ih =>
    intro r attempt calls cp hfr hfail hsucc
    have h0 : (fn calls).isSome := by
      have h1 := hfail 0 (Nat.succ_pos f)
      rwa [Nat.add_zero] at h1
    obtain ⟨e, he⟩ := Option.isSome_iff_exists.mp h0
    obtain ⟨r', rfl⟩ : ∃ r', r = r' + 1 := ⟨r - 1, by omega⟩
    have hrec := ih r' (attempt + 1) (calls + 1)
      (cp + (if 0 < attempt then 2 else 1)) (by omega)
      (fun i hi => by
        have h2 := hfail (i + 1) (by omega)
        rwa [show calls + (i + 1) = calls + 1 + i by omega] at h2)
      (by rwa [show calls + 1 + f = calls + (f + 1) by omega])
    rw [retryLoop_succ]
    simp only [he, Bool.false_eq_true, if_false, false_and, Nat.succ_ne_zero,
      ite_false]
    rw [hrec]
    have hc : calls + 1 + f = calls + (f + 1) := by omega
    rw [hc]
    simp

theorem retryLoop_no_cancel_exhaust (fn : Nat → Option String)
    (e : Nat → String) (hfn : ∀ i, fn i = some (e i)) :
    ∀ (r attempt calls cp : Nat),
      retryLoop (fun _ => false) fn attempt calls cp (r + 1) =
        (RetryResult.maxRetriesExceeded
           ("max retries exceeded: " ++ e (calls + r)),
         calls + r + 1) := by
  intro r
  induction r with
  | zero =>
    intro attempt calls cp
    rw [retryLoop_succ]
    simp [hfn calls]
  | succ r ih =>
    intro attempt calls cp
    have hrec := ih (attempt + 1) (calls + 1)
      (cp + (if 0 < attempt then 2 else 1))
    rw [retryLoop_succ]
    simp only [hfn calls, Bool.false_eq_true, if_false, false_and,
      Nat.succ_ne_zero, ite_false]
    rw [hrec]
    have hc : calls + 1 + r = calls + (r + 1) := by omega
    rw [hc]
    simp

/-- C3: with an uncancelled context and `maxRetries >= 0`, an operation that
first fails `k-1` times and then succeeds makes `RetryWithConfig` return
success after exactly `k` invocations (for `k <= maxRetries+1`), while an
operation that always fails is invoked exactly `maxRetries+1` times and the
result is the "max retries exceeded" error wrapping the text of the last
underlying error. -/
theorem retryWithConfig_attempt_counts :
    (∀ (config : RetryConfig) (fn : Nat → Option String) (k : Nat),
      0 ≤ config.MaxRetries → 1 ≤ k → k ≤ config.MaxRetries.toNat + 1 →
      (∀ i, i < k - 1 → (fn i).isSome) → fn (k - 1) = none →
      RetryWithConfig (fun _ => false) config fn = (RetryResult.ok, k)) ∧
    (∀ (config : RetryConfig) (fn : Nat → Option String) (e : Nat → String),
      0 ≤ config.MaxRetries → (∀ i, fn i = some (e i)) →
      RetryWithConfig (fun _ => false) config fn =
        (RetryResult.maxRetriesExceeded
           ("max retries exceeded: " ++ e config.MaxRetries.toNat),
         config.MaxRetries.toNat + 1)) := by
  constructor
  · intro config fn k hmr hk1 hk2 hfail hsucc
    unfold RetryWithConfig
    rw [if_neg (by omega)]
    have h := retryLoop_no_cancel_ok fn (k - 1) config.MaxRetries.toNat 0 0 0
      (by omega)
      (fun i hi => by simpa using hfail i hi)
      (by simpa using hsucc)
    rw [h]
    congr 1
    omega
  · intro config fn e hmr hfn
    unfold RetryWithConfig
    rw [if_neg (by omega)]
    have h := retryLoop_no_cancel_exhaust fn e hfn config.MaxRetries.toNat 0 0 0
    simpa using h

/-- C3 witness: with `maxRetries = 3`, failing twice then succeeding returns
success after exactly 3 invocations; with `maxRetries = 2` and an operation
that always fails, exactly 3 invocations happen and the wrapped error keeps
the underlying error text. -/
theorem retryWithConfig_attempt_counts_witness :
    RetryWithConfig (fun _ => false)
      { MaxRetries := 3, BaseDelay := 1000000000, MaxDelay := 30000000000,
        Multiplier := 2, Jitter := true }
      (fun i => if i < 2 then some "boom" else none) = (RetryResult.ok, 3) ∧
    RetryWithConfig (fun _ => false)
      { MaxRetries := 2, BaseDelay := 1000000000, MaxDelay := 30000000000,
        Multiplier := 2, Jitter := true }
      (fun _ => some "boom") =
      (RetryResult.maxRetriesExceeded ("max retries exceeded: " ++ "boom"),
       3) := by
  constructor
  · exact retryWithConfig_attempt_counts.1
      { MaxRetries := 3, BaseDelay := 1000000000, MaxDelay := 30000000000,
        Multiplier := 2, Jitter := true }
      (fun i => if i < 2 then some "boom" else none) 3
      (by decide) (by decide) (by decide)
      (fun i hi => by simp; omega)
      (by simp)
  · exact retryWithConfig_attempt_counts.2
      { MaxRetries := 2, BaseDelay := 1000000000, MaxDelay := 30000000000,
        Multiplier := 2, Jitter := true }
      (fun _ => some "boom") (fun _ => "boom") (by decide) (fun _ => rfl)

/-- C8: a context observed as cancelled before an attempt begins, or during
the inter-attempt wait, makes the retry loop return the cancellation error
immediately, without invoking the operation again. -/
theorem retryWithConfig_cancellation :
    (∀ (ctx : Nat → Bool) (config : RetryConfig) (fn : Nat → Option String),
      0 ≤ config.MaxRetries → ctx 0 = true →
      RetryWithConfig ctx config fn = (RetryResult.cancelled, 0)) ∧
    (∀ (ctx : Nat → Bool) (fn : Nat → Option String)
      (attempt calls cp r : Nat), ctx cp = true →
      retryLoop ctx fn attempt calls cp (r + 1) =
        (RetryResult.cancelled, calls)) ∧
    (∀ (ctx : Nat → Bool) (fn : Nat → Option String)
      (attempt calls cp r : Nat),
      0 < attempt → ctx cp = false → ctx (cp + 1) = true →
      retryLoop ctx fn attempt calls cp (r + 1) =
        (RetryResult.cancelled, calls)) := by
  refine ⟨?_, ?_, ?_⟩
  · intro ctx config fn hmr hc
    unfold RetryWithConfig
    rw [if_neg (by omega), retryLoop_succ]
    simp [hc]
  · intro ctx fn attempt calls cp r hc
    rw [retryLoop_succ]
    simp [hc]
  · intro ctx fn attempt calls cp r ha hc0 hc1
    rw [retryLoop_succ]
    simp [hc0, hc1, ha]

/-- C8 witness: a context cancelled from the start aborts with the
cancellation result before any invocation, and one cancelled at the wait
checkpoint of attempt 1 aborts with exactly the one earlier invocation
counted. -/
theorem retryWithConfig_cancellation_witness :
    RetryWithConfig (fun _ => true)
      { MaxRetries := 3, BaseDelay := 1000000000, MaxDelay := 30000000000,
        Multiplier := 2, Jitter := true }
      (fun _ => some "boom") = (RetryResult.cancelled, 0) ∧
    retryLoop (fun i => decide (2 ≤ i)) (fun _ => some "boom") 1 1 1 3 =
      (RetryResult.cancelled, 1) := by
  constructor
  · exact retryWithConfig_cancellation.1 (fun _ => true)
      { MaxRetries := 3, BaseDelay := 1000000000, MaxDelay := 30000000000,
        Multiplier := 2, Jitter := true }
      (fun _ => some "boom") (by decide) rfl
  · exact retryWithConfig_cancellation.2.2 (fun i => decide (2 ≤ i))
      (fun _ => some "boom") 1 1 1 2 (by decide) (by decide) (by decide)

/-- C5: the jitter term is `delay * 0.1 * (0.5 - 0.5) = 0`, so the computed
delay is identical whether the `Jitter` flag is set or not. -/
theorem calculateDelay_jitter_no_op (config : RetryConfig) (attempt : Nat) :
    calculateDelay { config with Jitter := true } attempt =
      calculateDelay { config with Jitter := false } attempt := by
  unfold calculateDelay calculateDelayQ
  norm_num

/-- C4 counterexample: with `BaseDelay = -1ns` (a legal negative
`time.Duration`) the delay computed for attempt 1 (which is in
`[1, MaxRetries]` since `MaxRetries = 3`) is `-1 < 0`: the code clamps the
delay only from above, never up to zero.  On this input the identity
rounding reproduces the IEEE-754 float64 run exactly: every value the
result depends on (`-1`, `1`, `30`, `0`) is exactly representable, the one
inexact constant `0.1` only feeds a product whose other factor is the exact
zero `0.5 - 0.5`, and `Pow(2, 0) = 1` is a documented exact special case of
`math.Pow`. -/
theorem calculateDelayFP_negative_delay :
    calculateDelayFP (fun q => q) (fun _ _ => 1)
      { MaxRetries := 3, BaseDelay := -1, MaxDelay := 30,
        Multiplier := 2, Jitter := true } 1 = -1 ∧
    (1 : Int) ≤ (3 : Int) := by
  constructor
  · norm_num [calculateDelayFP, truncQ]
    exact_mod_cast Int.ceil_intCast (α := ℚ) (-1)
  · norm_num

/-- C4 (amended): for every rounding with the properties of IEEE-754
round-to-nearest-even (exact on integers of magnitude up to `2^53`,
idempotent, sign-preserving), every non-negative `math.Pow` result, every
RetryConfig with `BaseDelay >= 0` and `MaxDelay` exactly representable in
float64 (`0 <= MaxDelay <= 2^53` nanoseconds, about 104 days), and every
attempt in `[1, MaxRetries]`, the computed delay lies in `[0, MaxDelay]`.
Without `BaseDelay >= 0` the delay can be negative (no lower clamp), and
without `MaxDelay <= 2^53` the conversion `float64(MaxDelay)` can round up
so that the returned delay exceeds `MaxDelay`
(`calculateDelayFP_rounding_exceeds_max` below). -/
theorem calculateDelayFP_bounds (fl : ℚ → ℚ) (pw : ℚ → ℚ → ℚ)
    (config : RetryConfig) (attempt : Nat)
    (hfl_int : ∀ n : Int, n.natAbs ≤ 2 ^ 53 → fl (n : ℚ) = (n : ℚ))
    (hfl_idem : ∀ x, fl (fl x) = fl x)
    (hfl_sign : ∀ x, 0 ≤ x → 0 ≤ fl x)
    (hb : 0 ≤ config.BaseDelay)
    (hp : 0 ≤ pw config.Multiplier ((attempt : ℚ) - 1))
    (hd0 : 0 ≤ config.MaxDelay) (hd53 : config.MaxDelay ≤ 2 ^ 53)
    (_ha1 : 1 ≤ attempt) (_ha2 : (attempt : Int) ≤ config.MaxRetries) :
    0 ≤ calculateDelayFP fl pw config attempt ∧
    calculateDelayFP fl pw config attempt ≤ config.MaxDelay := by
  have hmax : fl (config.MaxDelay : ℚ) = (config.MaxDelay : ℚ) :=
    hfl_int config.MaxDelay (by omega)
  have hzero : fl 0 = 0 := by
    have h := hfl_int 0 (by norm_num)
    simpa using h
  have hb2 : (0 : ℚ) ≤ fl (config.BaseDelay : ℚ) :=
    hfl_sign _ (by exact_mod_cast hb)
  set d0 : ℚ := fl (fl (config.BaseDelay : ℚ) *
    pw config.Multiplier ((attempt : ℚ) - 1)) with hd0def
  have hd0n : 0 ≤ d0 := by
    rw [hd0def]
    exact hfl_sign _ (mul_nonneg hb2 hp)
  set d1 : ℚ := if fl (config.MaxDelay : ℚ) < d0 then
    fl (config.MaxDelay : ℚ) else d0 with hd1def
  have hd1n : 0 ≤ d1 := by
    rw [hd1def]
    split
    · rw [hmax]
      exact_mod_cast hd0
    · exact hd0n
  have hd1le : d1 ≤ (config.MaxDelay : ℚ) := by
    rw [hd1def]
    split
    · rw [hmax]
    · rw [← hmax]
      rename_i hnlt
      exact le_of_not_lt hnlt
  have hd1fl : fl d1 = d1 := by
    rw [hd1def]
    split
    · exact hfl_idem _
    · rw [hd0def]
      exact hfl_idem _
  have hfinal : calculateDelayFP fl pw config attempt = truncQ d1 := by
    simp only [calculateDelayFP, ← hd0def, ← hd1def]
    split
    · congr 1
      rw [sub_self, hzero, mul_zero, hzero, add_zero, hd1fl]
    · rfl
  rw [hfinal]
  unfold truncQ
  rw [if_pos hd1n]
  constructor
  · exact Int.le_floor.mpr (by exact_mod_cast hd1n)
  · calc ⌊d1⌋ ≤ ⌊(config.MaxDelay : ℚ)⌋ := Int.floor_le_floor hd1le
      _ = config.MaxDelay := Int.floor_intCast _

/-- C4 witness: the default configuration at attempt 1 (with the identity
rounding, which satisfies every rounding hypothesis, and the exact
`Pow(2, 0) = 1`) stays within `[0, MaxDelay]`. -/
theorem calculateDelayFP_bounds_witness :
    0 ≤ calculateDelayFP (fun q => q) (fun _ _ => 1) DefaultRetryConfig 1 ∧
    calculateDelayFP (fun q => q) (fun _ _ => 1) DefaultRetryConfig 1 ≤
      DefaultRetryConfig.MaxDelay :=
  calculateDelayFP_bounds (fun q => q) (fun _ _ => 1) DefaultRetryConfig 1
    (fun _ _ => rfl) (fun _ => rfl) (fun _ h => h)
    (by norm_num [DefaultRetryConfig]) (by norm_num)
    (by norm_num [DefaultRetryConfig]) (by norm_num [DefaultRetryConfig])
    (by norm_num) (by norm_num [DefaultRetryConfig])

/-- The `MaxDelay ≤ 2^53` restriction in the amended C4 bound is necessary:
this rounding satisfies every hypothesis of `calculateDelayFP_bounds`
(exact on integers up to `2^53`, idempotent, sign-preserving) and agrees
with IEEE-754 round-to-nearest-even on every value this run touches — in
particular `float64(2^60 - 1) = 2^60`, since the ulp at `2^60` is `2^7` —
yet with `BaseDelay = MaxDelay = 2^60 - 1` and `Multiplier = 1` (where
`Pow(1, 0) = 1` exactly) the returned delay is `2^60 > MaxDelay`. -/
theorem calculateDelayFP_rounding_exceeds_max :
    (∀ n : Int, n.natAbs ≤ 2 ^ 53 →
      (if ((n : ℚ)) = 2 ^ 60 - 1 then (2 ^ 60 : ℚ) else (n : ℚ)) = (n : ℚ)) ∧
    calculateDelayFP (fun q => if q = 2 ^ 60 - 1 then 2 ^ 60 else q)
      (fun _ _ => 1)
      { MaxRetries := 3, BaseDelay := 2 ^ 60 - 1, MaxDelay := 2 ^ 60 - 1,
        Multiplier := 1, Jitter := true } 1 = 2 ^ 60 := by
  constructor
  · intro n hn
    rw [if_neg]
    intro he
    have hn2 : (n : ℚ) = ((2 ^ 60 - 1 : Int) : ℚ) := by
      rw [he]
      norm_num
    have hn3 : n = 2 ^ 60 - 1 := by exact_mod_cast hn2
    omega
  · norm_num [calculateDelayFP, truncQ]

/-- C10: `contains` decides exact, case-sensitive substring occurrence (no
case folding despite its doc comment), coincides with the plain linear scan
`containsSubstring` whenever `len(s) >= len(substr)`, and consequently
`IsRetryableError`'s signature matching is case-sensitive. -/
theorem contains_is_exact_substring :
    (∀ s substr : List Char, contains s substr = true ↔ substr <:+: s) ∧
    (∀ s substr : List Char, substr.length ≤ s.length →
      contains s substr = containsSubstring s substr) ∧
    IsRetryableError (some "connection timeout") = true ∧
    IsRetryableError (some "connection TIMEOUT") = false :=
  ⟨contains_eq_true_iff, contains_eq_containsSubstring, by decide, by decide⟩

/-- C10 witness: a middle occurrence is found by `contains`, and `contains`
agrees with `containsSubstring` on it. -/
theorem contains_is_exact_substring_witness :
    contains "abc".toList "b".toList = true ∧
    contains "abc".toList "b".toList =
      containsSubstring "abc".toList "b".toList :=
  ⟨(contains_is_exact_substring.1 "abc".toList "b".toList).mpr
      ⟨"a".toList, "c".toList, by decide⟩,
   contains_is_exact_substring.2.1 "abc".toList "b".toList (by decide)⟩

end Gothink
